import Mathlib

/-
Verification of the WebGL "stable fluids" solver of this repository.

The solver lives in the fluid module: the `FluidSolver` class (textures,
framebuffers, and the per-frame pass sequence) and the GLSL fragment shaders
(advect, divergence, curl, vorticity, pressure, gradientSubtract, splat,
velocitySplat, clear).

Embedding conventions:
  - A texture is a total function `ℤ → ℤ → α` ("grid"); texel (i, j) holds the
    sample of the cell whose center has normalized coordinates
    ((i + 1/2)/w, (j + 1/2)/h).  CLAMP_TO_EDGE addressing is `clampIdx`.
  - The shaders sample neighbours at `vUv ± uInverseTexSize`, i.e. exactly one
    texel away from a texel center; with LINEAR filtering that lands exactly on
    the neighbouring texel center, so those reads are embedded as clamped texel
    lookups (`sampleC`).  The advection shader samples at an arbitrary
    back-traced coordinate, which is embedded by full bilinear interpolation
    (`texSample`), exactly as LINEAR + CLAMP_TO_EDGE filtering computes it.
  - Arithmetic-only kernels are stated over an arbitrary linear ordered field,
    so they can be run exactly over ℚ; the kernels using GLSL length/distance/
    exp are stated over ℝ with Real.sqrt / Real.exp.
  - GPU half floats are idealized as exact field elements; shader literals
    (0.25, 1e-5, ...) are the corresponding rationals.
-/

namespace Fluid

/-- A texture: a total grid of samples indexed by texel coordinates. -/
abbrev SGrid (α : Type) : Type := ℤ → ℤ → α

section Passes

variable {α : Type} [LinearOrderedField α]

/-- CLAMP_TO_EDGE: clamp a texel index into [0, n-1]. -/
def clampIdx (n i : ℤ) : ℤ := max 0 (min (n - 1) i)

/-- Texel lookup with CLAMP_TO_EDGE addressing. -/
def sampleC (w h : ℤ) (g : SGrid α) (i j : ℤ) : α := g (clampIdx w i) (clampIdx h j)

/-- GLSL mix(a, b, t): linear interpolation. -/
def lerp (a b t : α) : α := a + t * (b - a)

/-- Normalized coordinate of the center of texel i in a row of n texels. -/
def texelCenter (n i : ℤ) : α := ((i : α) + 1 / 2) / (n : α)

variable [FloorRing α]

/-- GLSL texture() with LINEAR filtering and CLAMP_TO_EDGE wrap, at an
arbitrary normalized coordinate: bilinear interpolation of the four
surrounding texels. -/
def texSample (w h : ℤ) (g : SGrid α) (ux uy : α) : α :=
  let sx := ux * (w : α) - 1 / 2
  let sy := uy * (h : α) - 1 / 2
  let ix := ⌊sx⌋
  let iy := ⌊sy⌋
  let fx := sx - (ix : α)
  let fy := sy - (iy : α)
  lerp (lerp (sampleC w h g ix iy) (sampleC w h g (ix + 1) iy) fx)
       (lerp (sampleC w h g ix (iy + 1)) (sampleC w h g (ix + 1) (iy + 1)) fx) fy

/-- advectFragment, one output channel: semi-Lagrangian backtrace
`coord = vUv - uDt * velocity * uInverseTexSize`, sample the source there,
scale by the dissipation.  (vw, vh) is the velocity texture size, (tw, th)
the target/source size; the shader's uInverseTexSize is (1/tw, 1/th). -/
def advectChannel (vw vh tw th : ℤ) (velx vely src : SGrid α) (dissipation dt : α) :
    SGrid α := fun i j =>
  let ux : α := texelCenter tw i
  let uy : α := texelCenter th j
  let vx := texSample vw vh velx ux uy
  let vy := texSample vw vh vely ux uy
  let cx := ux - dt * vx * (1 / (tw : α))
  let cy := uy - dt * vy * (1 / (th : α))
  dissipation * texSample tw th src cx cy

/-- divergenceFragment: central-difference divergence
`0.5 * (r - l + t - b)` of the velocity field. -/
def divergencePass (w h : ℤ) (velx vely : SGrid α) : SGrid α := fun i j =>
  let l := sampleC w h velx (i - 1) j
  let r := sampleC w h velx (i + 1) j
  let b := sampleC w h vely i (j - 1)
  let t := sampleC w h vely i (j + 1)
  (1 / 2) * (r - l + t - b)

/-- curlFragment: central-difference scalar curl `r - l - t + b`, where l, r
sample velocity.y one texel left/right and b, t sample velocity.x one texel
down/up. -/
def curlPass (w h : ℤ) (velx vely : SGrid α) : SGrid α := fun i j =>
  let l := sampleC w h vely (i - 1) j
  let r := sampleC w h vely (i + 1) j
  let b := sampleC w h velx i (j - 1)
  let t := sampleC w h velx i (j + 1)
  r - l - t + b

/-- pressureFragment: one Jacobi relaxation step
`(l + r + b + t - divergence) * 0.25`. -/
def jacobiPass (w h : ℤ) (p dv : SGrid α) : SGrid α := fun i j =>
  let l := sampleC w h p (i - 1) j
  let r := sampleC w h p (i + 1) j
  let b := sampleC w h p i (j - 1)
  let t := sampleC w h p i (j + 1)
  (l + r + b + t - sampleC w h dv i j) * (1 / 4)

/-- gradientSubtractFragment: `velocity -= 0.5 * (pr - pl, pt - pb)`. -/
def gradientSubtractPass (w h : ℤ) (p velx vely : SGrid α) : SGrid α × SGrid α :=
  (fun i j => sampleC w h velx i j -
      (1 / 2) * (sampleC w h p (i + 1) j - sampleC w h p (i - 1) j),
   fun i j => sampleC w h vely i j -
      (1 / 2) * (sampleC w h p i (j + 1) - sampleC w h p i (j - 1)))

/-- clearFragment, one channel: `base * uValue`. -/
def clearChannel (w h : ℤ) (g : SGrid α) (v : α) : SGrid α := fun i j =>
  sampleC w h g i j * v

/-- Sum of squares of the first n entries of row j. -/
def rowNormSq (g : SGrid α) (j : ℤ) : ℕ → α
  | 0 => 0
  | n + 1 => rowNormSq g j n + (g (n : ℤ) j) ^ 2

/-- Sum of `rowNormSq` over the first m rows. -/
def gridNormSqAux (g : SGrid α) (w : ℕ) : ℕ → α
  | 0 => 0
  | m + 1 => gridNormSqAux g w m + rowNormSq g (m : ℤ) w

/-- Squared L2 norm of a w × h scalar field. -/
def l2NormSq (w h : ℕ) (g : SGrid α) : α := gridNormSqAux g w h

end Passes

/-!  Concrete pressure-projection computations over ℚ, used to settle the
divergence-reduction property.  `ceVx, ceVy` is a 2 × 1 velocity field whose
divergence is the nonzero constant 1/2; `amVx, amVy` is a 3 × 1 velocity field
with a localized source.  `tab2`/`tab3` materialize a row grid from its (2
resp. 3) in-range values, so that iterating the Jacobi pass stays linear-time
(the passes only ever read the clamped in-range samples, so this is exact). -/

/-- 2 × 1 velocity field (0, 1) along x: constant divergence 1/2. -/
def ceVx : SGrid ℚ := fun i _ => if 1 ≤ i then 1 else 0

/-- Zero y-velocity for the 2 × 1 example. -/
def ceVy : SGrid ℚ := fun _ _ => 0

/-- Divergence of the 2 × 1 example field. -/
def ceDiv : SGrid ℚ := divergencePass 2 1 ceVx ceVy

/-- Materialize a 2 × 1 row grid from its two in-range values. -/
def tab2 (t : ℚ × ℚ) : SGrid ℚ := fun i _ => if i ≤ 0 then t.1 else t.2

/-- One Jacobi iteration of the 2 × 1 example, on materialized pressure rows. -/
def ceJacStep (t : ℚ × ℚ) : ℚ × ℚ :=
  let p := jacobiPass 2 1 (tab2 t) ceDiv
  (p 0 0, p 1 0)

/-- Pressure of the 2 × 1 example after n Jacobi iterations from zero. -/
def ceP (n : ℕ) : SGrid ℚ := tab2 (ceJacStep^[n] (0, 0))

/-- Squared L2 norm of the recomputed divergence of the 2 × 1 example after
n Jacobi iterations and the gradient subtraction. -/
def ceNormSq (n : ℕ) : ℚ :=
  let v := gradientSubtractPass 2 1 (ceP n) ceVx ceVy
  l2NormSq 2 1 (divergencePass 2 1 v.1 v.2)

/-- 3 × 1 velocity field (0, 1, 0) along x. -/
def amVx : SGrid ℚ := fun i _ => if i = 1 then 1 else 0

/-- Zero y-velocity for the 3 × 1 example. -/
def amVy : SGrid ℚ := fun _ _ => 0

/-- Divergence of the 3 × 1 example field. -/
def amDiv : SGrid ℚ := divergencePass 3 1 amVx amVy

/-- Materialize a 3 × 1 row grid from its three in-range values. -/
def tab3 (t : ℚ × ℚ × ℚ) : SGrid ℚ := fun i _ =>
  if i ≤ 0 then t.1 else if i = 1 then t.2.1 else t.2.2

/-- One Jacobi iteration of the 3 × 1 example, on materialized pressure rows. -/
def amJacStep (t : ℚ × ℚ × ℚ) : ℚ × ℚ × ℚ :=
  let p := jacobiPass 3 1 (tab3 t) amDiv
  (p 0 0, p 1 0, p 2 0)

/-- Pressure of the 3 × 1 example after n Jacobi iterations from zero. -/
def amP (n : ℕ) : SGrid ℚ := tab3 (amJacStep^[n] (0, 0, 0))

/-- Squared L2 norm of the recomputed divergence of the 3 × 1 example after
n Jacobi iterations and the gradient subtraction. -/
def amNormSq (n : ℕ) : ℚ :=
  let v := gradientSubtractPass 3 1 (amP n) amVx amVy
  l2NormSq 3 1 (divergencePass 3 1 v.1 v.2)

set_option maxRecDepth 100000 in
/-!  The solver itself works over ℝ: the vorticity and splat kernels use GLSL
length / distance / exp, embedded with Real.sqrt and Real.exp. -/

noncomputable section

/-- GLSL length of a vec2. -/
def glslLength (x y : ℝ) : ℝ := Real.sqrt (x ^ 2 + y ^ 2)

/-- GLSL distance between two points of the normalized texture plane. -/
def glslDistance (ux uy px py : ℝ) : ℝ := Real.sqrt ((ux - px) ^ 2 + (uy - py) ^ 2)

/-- GLSL clamp(x, lo, hi). -/
def glslClamp (x lo hi : ℝ) : ℝ := min (max x lo) hi

/-- splatFragment / velocitySplatFragment falloff:
`influence = exp(-d*d / uRadius)` with `d = distance(vUv, uPoint)`. -/
def splatInfluence (ux uy px py radius : ℝ) : ℝ :=
  Real.exp (-(glslDistance ux uy px py * glslDistance ux uy px py) / radius)

/-- vorticityFragment force: `force = 0.5 * (|r|-|l|, |t|-|b|)` of the curl
field, divided by `length(force) + 1e-5`, times `uVorticity * c`. -/
def vorticityForce (w h : ℤ) (curlg : SGrid ℝ) (amount : ℝ) (i j : ℤ) : ℝ × ℝ :=
  let l := |sampleC w h curlg (i - 1) j|
  let r := |sampleC w h curlg (i + 1) j|
  let b := |sampleC w h curlg i (j - 1)|
  let t := |sampleC w h curlg i (j + 1)|
  let c := sampleC w h curlg i j
  let fx := (1 / 2) * (r - l)
  let fy := (1 / 2) * (t - b)
  let d := glslLength fx fy + 1 / 100000
  (fx / d * (amount * c), fy / d * (amount * c))

/-- vorticityFragment: `velocity += force * uDt`. -/
def vorticityPass (w h : ℤ) (velx vely curlg : SGrid ℝ) (amount dt : ℝ) :
    SGrid ℝ × SGrid ℝ :=
  (fun i j => sampleC w h velx i j + (vorticityForce w h curlg amount i j).1 * dt,
   fun i j => sampleC w h vely i j + (vorticityForce w h curlg amount i j).2 * dt)

/-- The four channels of the dye texture (RGBA16F). -/
structure DyeField where
  r : SGrid ℝ
  g : SGrid ℝ
  b : SGrid ℝ
  a : SGrid ℝ

/-- splatFragment: add `uColor * influence` to the RGB channels and clamp
`base.a + influence` into [0, 1] for the density channel. -/
def splatPass (w h : ℤ) (d : DyeField) (px py cr cg cb radius : ℝ) : DyeField where
  r := fun i j => sampleC w h d.r i j +
        cr * splatInfluence (texelCenter w i) (texelCenter h j) px py radius
  g := fun i j => sampleC w h d.g i j +
        cg * splatInfluence (texelCenter w i) (texelCenter h j) px py radius
  b := fun i j => sampleC w h d.b i j +
        cb * splatInfluence (texelCenter w i) (texelCenter h j) px py radius
  a := fun i j => glslClamp (sampleC w h d.a i j +
        splatInfluence (texelCenter w i) (texelCenter h j) px py radius) 0 1

/-- velocitySplatFragment: `velocity += uForce * influence`. -/
def velocitySplatPass (w h : ℤ) (velx vely : SGrid ℝ) (px py fx fy radius : ℝ) :
    SGrid ℝ × SGrid ℝ :=
  (fun i j => sampleC w h velx i j +
      fx * splatInfluence (texelCenter w i) (texelCenter h j) px py radius,
   fun i j => sampleC w h vely i j +
      fy * splatInfluence (texelCenter w i) (texelCenter h j) px py radius)

/-- advect() applied to the four dye channels (the back-traced coordinate is
computed once from the velocity field, identically for every channel). -/
def advectDyeField (vw vh tw th : ℤ) (velx vely : SGrid ℝ) (d : DyeField)
    (dissipation dt : ℝ) : DyeField where
  r := advectChannel vw vh tw th velx vely d.r dissipation dt
  g := advectChannel vw vh tw th velx vely d.g dissipation dt
  b := advectChannel vw vh tw th velx vely d.b dissipation dt
  a := advectChannel vw vh tw th velx vely d.a dissipation dt

/-- The recognized configuration options (DEFAULTS in solver.js). -/
structure Settings where
  simSize : ℤ
  dyeSize : ℤ
  densityDissipation : ℝ
  velocityDissipation : ℝ
  pressureIterations : ℕ
  vorticity : ℝ
  splatRadius : ℝ

/-- The default option set of solver.js (0.985 = 197/200, 0.0009 = 9/10000). -/
def DEFAULTS : Settings :=
  ⟨256, 512, 197 / 200, 197 / 200, 20, 30, 9 / 10000⟩

/-- createDoubleFBO: a double-buffered texture pair with swap semantics. -/
structure DoubleFBO (V : Type) where
  read : V
  write : V

/-- swap(): exchange read and write in O(1). -/
def DoubleFBO.swap {V : Type} (f : DoubleFBO V) : DoubleFBO V := ⟨f.write, f.read⟩

/-- renderTo(target.write.fbo) followed by target.swap(): the freshly rendered
data g lands in the write buffer and the swap makes it the read buffer. -/
def DoubleFBO.renderSwap {V : Type} (f : DoubleFBO V) (g : V) : DoubleFBO V :=
  DoubleFBO.swap ⟨f.read, g⟩

/-- The texture contents created by createTexture(gl, w, h, ..., null):
zero-filled. -/
def zeroGrid : SGrid ℝ := fun _ _ => 0

/-- A zero-filled double buffer of one scalar texture per side. -/
def zeroFBO : DoubleFBO (SGrid ℝ) := ⟨zeroGrid, zeroGrid⟩

/-- Zero-filled velocity double buffer. -/
def zeroVelocityFBO : DoubleFBO (SGrid ℝ × SGrid ℝ) :=
  ⟨(zeroGrid, zeroGrid), (zeroGrid, zeroGrid)⟩

/-- Zero-filled dye texture. -/
def zeroDye : DyeField := ⟨zeroGrid, zeroGrid, zeroGrid, zeroGrid⟩

/-- The FluidSolver state: owned Fields plus settings and the base sizes
captured by the constructor.  divergence and curl are single textures (one
FBO each, no double buffering), exactly as in solver.js. -/
structure FluidSolver where
  settings : Settings
  baseSim : ℤ
  baseDye : ℤ
  velocity : DoubleFBO (SGrid ℝ × SGrid ℝ)
  dye : DoubleFBO DyeField
  divergence : SGrid ℝ
  pressure : DoubleFBO (SGrid ℝ)
  curl : SGrid ℝ

/-- initBuffers(): reallocate every texture zero-filled at the sizes currently
stored in the settings. -/
def initBuffers (s : FluidSolver) : FluidSolver :=
  { s with velocity := zeroVelocityFBO, dye := ⟨zeroDye, zeroDye⟩,
           divergence := zeroGrid, pressure := zeroFBO, curl := zeroGrid }

/-- new FluidSolver(gl) with the default options. -/
def mkSolver : FluidSolver :=
  { settings := DEFAULTS, baseSim := DEFAULTS.simSize, baseDye := DEFAULTS.dyeSize,
    velocity := zeroVelocityFBO, dye := ⟨zeroDye, zeroDye⟩,
    divergence := zeroGrid, pressure := zeroFBO, curl := zeroGrid }

/-- resize(dpr): clamp the scale to at least 1, recompute both resolutions
from the stored base sizes (Math.round = ⌊x + 1/2⌋ on nonnegative input), and
reallocate all buffers zero-filled. -/
def resize (s : FluidSolver) (dpr : ℝ) : FluidSolver :=
  let scale := max 1 dpr
  initBuffers { s with settings :=
    { s.settings with
        simSize := round ((s.baseSim : ℝ) * scale),
        dyeSize := round ((s.baseDye : ℝ) * scale) } }

/-- One tag per kind of solver pass, used to record the pass sequence a call
to step() issues. -/
inductive PassTag where
  | advect
  | curl
  | vorticity
  | divergence
  | pressure
  | gradient

/-- Stage 1 of step(): this.advect(this.velocity, this.velocity,
velocityDissipation, dt). -/
def advectVelocityStage (s : FluidSolver) (dt : ℝ) : FluidSolver × List PassTag :=
  let n := s.settings.simSize
  let v := s.velocity.read
  let out := (advectChannel n n n n v.1 v.2 v.1 s.settings.velocityDissipation dt,
              advectChannel n n n n v.1 v.2 v.2 s.settings.velocityDissipation dt)
  ({ s with velocity := s.velocity.renderSwap out }, [PassTag.advect])

/-- Stage 2 of step(): this.advect(this.velocity, this.dye,
densityDissipation, dt). -/
def advectDyeStage (s : FluidSolver) (dt : ℝ) : FluidSolver × List PassTag :=
  let vn := s.settings.simSize
  let dn := s.settings.dyeSize
  let v := s.velocity.read
  let out := advectDyeField vn vn dn dn v.1 v.2 s.dye.read s.settings.densityDissipation dt
  ({ s with dye := s.dye.renderSwap out }, [PassTag.advect])

/-- computeCurl(): render the curl pass into the single curl texture. -/
def computeCurl (s : FluidSolver) : FluidSolver × List PassTag :=
  let n := s.settings.simSize
  ({ s with curl := curlPass n n s.velocity.read.1 s.velocity.read.2 },
   [PassTag.curl])

/-- applyVorticity(amount, dt): render into velocity.write, then swap. -/
def applyVorticity (s : FluidSolver) (amount dt : ℝ) : FluidSolver × List PassTag :=
  let n := s.settings.simSize
  let out := vorticityPass n n s.velocity.read.1 s.velocity.read.2 s.curl amount dt
  ({ s with velocity := s.velocity.renderSwap out }, [PassTag.vorticity])

/-- computeDivergence(): render the divergence pass into the single
divergence texture. -/
def computeDivergence (s : FluidSolver) : FluidSolver × List PassTag :=
  let n := s.settings.simSize
  ({ s with divergence := divergencePass n n s.velocity.read.1 s.velocity.read.2 },
   [PassTag.divergence])

/-- One iteration of the solvePressure loop body: read pressure.read and the
divergence texture, render into pressure.write, swap. -/
def pressureIteration (s : FluidSolver) : FluidSolver :=
  let n := s.settings.simSize
  { s with pressure := s.pressure.renderSwap (jacobiPass n n s.pressure.read s.divergence) }

/-- solvePressure(iterations): the Jacobi relaxation loop. -/
def solvePressure : FluidSolver → ℕ → FluidSolver × List PassTag
  | s, 0 => (s, [])
  | s, k + 1 =>
    let rest := solvePressure (pressureIteration s) k
    (rest.1, PassTag.pressure :: rest.2)

/-- subtractGradient(): render into velocity.write, then swap. -/
def subtractGradient (s : FluidSolver) : FluidSolver × List PassTag :=
  let n := s.settings.simSize
  let out := gradientSubtractPass n n s.pressure.read s.velocity.read.1 s.velocity.read.2
  ({ s with velocity := s.velocity.renderSwap out }, [PassTag.gradient])

/-- step(dt): the per-frame pass sequence of FluidSolver.step, together with
the list of passes it issued. -/
def step (s : FluidSolver) (dt : ℝ) : FluidSolver × List PassTag :=
  let r1 := advectVelocityStage s dt
  let r2 := advectDyeStage r1.1 dt
  let r3 := computeCurl r2.1
  let r4 := applyVorticity r3.1 s.settings.vorticity dt
  let r5 := computeDivergence r4.1
  let r6 := solvePressure r5.1 s.settings.pressureIterations
  let r7 := subtractGradient r6.1
  (r7.1, r1.2 ++ r2.2 ++ r3.2 ++ r4.2 ++ r5.2 ++ r6.2 ++ r7.2)

/-- addVelocitySplat(point, force). -/
def addVelocitySplat (s : FluidSolver) (px py fx fy : ℝ) : FluidSolver :=
  let n := s.settings.simSize
  let out := velocitySplatPass n n s.velocity.read.1 s.velocity.read.2 px py fx fy
    s.settings.splatRadius
  { s with velocity := s.velocity.renderSwap out }

/-- addDyeSplat(point, color). -/
def addDyeSplat (s : FluidSolver) (px py cr cg cb : ℝ) : FluidSolver :=
  let n := s.settings.dyeSize
  let out := splatPass n n s.dye.read px py cr cg cb s.settings.splatRadius
  { s with dye := s.dye.renderSwap out }

/-- clearTarget(this.dye, value). -/
def clearTargetDye (s : FluidSolver) (v : ℝ) : FluidSolver :=
  let n := s.settings.dyeSize
  let out : DyeField := ⟨clearChannel n n s.dye.read.r v, clearChannel n n s.dye.read.g v,
                         clearChannel n n s.dye.read.b v, clearChannel n n s.dye.read.a v⟩
  { s with dye := s.dye.renderSwap out }

/-- clearTarget(this.pressure, value). -/
def clearTargetPressure (s : FluidSolver) (v : ℝ) : FluidSolver :=
  let n := s.settings.simSize
  { s with pressure := s.pressure.renderSwap (clearChannel n n s.pressure.read v) }

/-- An external interaction applied to the solver: one frame step, one dye or
velocity splat, or a clear of the dye field. -/
inductive FluidOp where
  | timeStep (dt : ℝ)
  | dyeSplat (px py cr cg cb : ℝ)
  | velocitySplat (px py fx fy : ℝ)
  | clearDye (v : ℝ)

/-- Run one interaction. -/
def runOp (s : FluidSolver) : FluidOp → FluidSolver
  | FluidOp.timeStep dt => (step s dt).1
  | FluidOp.dyeSplat px py cr cg cb => addDyeSplat s px py cr cg cb
  | FluidOp.velocitySplat px py fx fy => addVelocitySplat s px py fx fy
  | FluidOp.clearDye v => clearTargetDye s v

/-- Run a sequence of interactions in order. -/
def runOps (s : FluidSolver) (ops : List FluidOp) : FluidSolver := ops.foldl runOp s

/-- A clear of the dye field must use a multiplier in [0, 1]; the other
interactions are unrestricted. -/
def ValidOp : FluidOp → Prop
  | FluidOp.clearDye v => 0 ≤ v ∧ v ≤ 1
  | _ => True

/-- The dye density (alpha) channel lies in [0, 1] at every sample. -/
def DyeDensityBounded (s : FluidSolver) : Prop :=
  ∀ i j : ℤ, 0 ≤ s.dye.read.a i j ∧ s.dye.read.a i j ≤ 1

/-- L1 magnitude of one dye texel (all four channels). -/
def cellMag (d : DyeField) (i j : ℤ) : ℝ := |d.r i j| + |d.g i j| + |d.b i j| + |d.a i j|

/-- Sum of `cellMag` over the first n cells of row j. -/
def rowMag (d : DyeField) (j : ℤ) : ℕ → ℝ
  | 0 => 0
  | n + 1 => rowMag d j n + cellMag d (n : ℤ) j

/-- Sum of `rowMag` over the first m rows. -/
def dyeTotalMagAux (d : DyeField) (w : ℕ) : ℕ → ℝ
  | 0 => 0
  | m + 1 => dyeTotalMagAux d w m + rowMag d (m : ℤ) w

/-- Total dye magnitude of a w × h dye field: the L1 norm over all in-range
texels and channels. -/
def dyeTotalMag (w h : ℕ) (d : DyeField) : ℝ := dyeTotalMagAux d w h

/-- GLSL sign(x). -/
def sgn (x : ℝ) : ℝ := if x < 0 then -1 else if 0 < x then 1 else 0

/-- Modelled from the spec: the vorticity-confinement update as the claim
states it — the exactly normalized gradient of |curl|, scaled by the curl's
sign and the strength, added to velocity scaled by dt (no epsilon in the
normalization, and the curl enters only through its sign). -/
def specVorticityVelocity (w h : ℤ) (velx vely curlg : SGrid ℝ) (amount dt : ℝ) :
    SGrid ℝ × SGrid ℝ :=
  (fun i j =>
    let l := |sampleC w h curlg (i - 1) j|
    let r := |sampleC w h curlg (i + 1) j|
    let b := |sampleC w h curlg i (j - 1)|
    let t := |sampleC w h curlg i (j + 1)|
    let c := sampleC w h curlg i j
    let fx := (1 / 2) * (r - l)
    let fy := (1 / 2) * (t - b)
    sampleC w h velx i j + (fx / glslLength fx fy * sgn c * amount) * dt,
   fun i j =>
    let l := |sampleC w h curlg (i - 1) j|
    let r := |sampleC w h curlg (i + 1) j|
    let b := |sampleC w h curlg i (j - 1)|
    let t := |sampleC w h curlg i (j + 1)|
    let c := sampleC w h curlg i j
    let fx := (1 / 2) * (r - l)
    let fy := (1 / 2) * (t - b)
    sampleC w h vely i j + (fy / glslLength fx fy * sgn c * amount) * dt)

/-- A concrete 3 × 1 curl texture (values 0, 2, 4) for the vorticity
counterexample. -/
def exCurl : SGrid ℝ := fun i _ => if i ≤ 0 then 0 else if i = 1 then 2 else 4

/-- A concrete solver whose curl texture holds the constant 5 (velocity is
zero), used to exhibit a stage that writes a single-buffered texture. -/
def exSolver : FluidSolver := { mkSolver with curl := fun _ _ => 5 }

/-- A concrete 1 × 1 dye field with every channel constantly 1. -/
def exDye : DyeField := ⟨fun _ _ => 1, fun _ _ => 1, fun _ _ => 1, fun _ _ => 1⟩

end

/-!  Helper lemmas about the pressure loop and the step pipeline. -/

/-- One renderSwap-of-Jacobi round on the pressure double buffer. -/
noncomputable def jacobiRound (n : ℤ) (dv : SGrid ℝ) (q : DoubleFBO (SGrid ℝ)) :
    DoubleFBO (SGrid ℝ) :=
  q.renderSwap (jacobiPass n n q.read dv)

/-- solvePressure unrolled: it iterates renderSwap-of-Jacobi k times on the
pressure double buffer, changes nothing else, and issues k pressure passes. -/
lemma solvePressure_eq (s : FluidSolver) (k : ℕ) :
    solvePressure s k =
      ({ s with pressure := (jacobiRound s.settings.simSize s.divergence)^[k] s.pressure },
       List.replicate k PassTag.pressure) := by
  induction k generalizing s with
  | zero => simp [solvePressure]
  | succ k ih =>
    rw [solvePressure, ih]
    simp [pressureIteration, jacobiRound, Function.iterate_succ_apply, List.replicate_succ]

/-- Reading the pressure double buffer after k renderSwap-of-Jacobi rounds
gives the k-fold Jacobi iterate of the initial read buffer. -/
lemma iterate_renderSwap_read (n : ℤ) (dv : SGrid ℝ) (p : DoubleFBO (SGrid ℝ)) (k : ℕ) :
    ((jacobiRound n dv)^[k] p).read = (fun q => jacobiPass n n q dv)^[k] p.read := by
  induction k generalizing p with
  | zero => rfl
  | succ k ih =>
    rw [Function.iterate_succ_apply, Function.iterate_succ_apply]
    exact ih _

/-- Claim C1: step(dt) always issues exactly the fixed pass sequence
advect, advect, curl, vorticity, divergence, pressureIterations × pressure,
gradient — independently of dt and of the field contents — and each Jacobi
iteration reads the divergence texture and the previous pressure estimate
(the final pressure is the pressureIterations-fold Jacobi iterate, seeded
with the entry pressure, against the divergence computed in stage 5). -/
theorem step_pass_sequence (s : FluidSolver) (dt : ℝ) :
    (step s dt).2 =
      [PassTag.advect, PassTag.advect, PassTag.curl, PassTag.vorticity, PassTag.divergence]
        ++ List.replicate s.settings.pressureIterations PassTag.pressure
        ++ [PassTag.gradient]
    ∧ (step s dt).1.pressure.read
        = (fun q => jacobiPass s.settings.simSize s.settings.simSize q
            ((step s dt).1.divergence))^[s.settings.pressureIterations] s.pressure.read := by
  constructor
  · simp [step, advectVelocityStage, advectDyeStage, computeCurl, applyVorticity,
      computeDivergence, subtractGradient, solvePressure_eq]
  · simp [step, advectVelocityStage, advectDyeStage, computeCurl, applyVorticity,
      computeDivergence, subtractGradient, solvePressure_eq, iterate_renderSwap_read]

set_option maxRecDepth 100000 in
/-- Claim C2 counterexample: the 2 × 1 velocity field (0, 1) has nonzero
divergence (squared L2 norm 1/2), yet one Jacobi iteration (from cleared
pressure) followed by the gradient subtraction leaves the recomputed
divergence's L2 norm unchanged (not strictly smaller), and even after the
default 20 iterations the norm is still exactly the initial one, so it does
not approach zero either. -/
theorem divergence_reduction_counterexample :
    l2NormSq 2 1 ceDiv ≠ 0 ∧
    ceNormSq 0 = l2NormSq 2 1 ceDiv ∧
    ¬ (ceNormSq 1 < ceNormSq 0) ∧
    ceNormSq 20 = ceNormSq 0 :=
  of_decide_eq_true (by with_unfolding_all rfl)

set_option maxRecDepth 100000 in
/-- Claim C2 (amended): projection need not shrink the divergence of every
field with nonzero divergence (constant-divergence fields as in the
counterexample are fixed points under clamp-to-edge boundaries), but on the
3 × 1 field (0, 1, 0), whose divergence is nonzero and non-constant, the
squared L2 norm of the recomputed divergence after n Jacobi iterations plus
gradient subtraction is strictly decreasing in n for every n < 20
(`amNormSq 0` being the norm before projection): one iteration already
strictly reduces it and each further iteration up to the default count 20
reduces it further. -/
theorem divergence_reduction_example :
    ∀ n : Fin 20, amNormSq (n.val + 1) < amNormSq n.val :=
  of_decide_eq_true (by with_unfolding_all rfl)

/-- Claim C4: no stage of step touches the pressure field except the Jacobi
iterations — the pipeline through stage 5 (both advections, curl, vorticity,
divergence) leaves the pressure double buffer untouched, the final pressure
is the Jacobi iterate seeded with the entry pressure (warm start), and
subtractGradient leaves pressure unchanged; pressure becomes zero exactly via
clearTarget(pressure, 0) or resize (zero-filled reallocation). -/
theorem pressure_not_reset (s : FluidSolver) (dt : ℝ) :
    (computeDivergence (applyVorticity (computeCurl (advectDyeStage
        (advectVelocityStage s dt).1 dt).1).1 s.settings.vorticity dt).1).1.pressure
      = s.pressure
    ∧ (step s dt).1.pressure.read
        = (fun q => jacobiPass s.settings.simSize s.settings.simSize q
            ((step s dt).1.divergence))^[s.settings.pressureIterations] s.pressure.read
    ∧ (subtractGradient s).1.pressure = s.pressure
    ∧ (clearTargetPressure s 0).pressure.read = zeroGrid
    ∧ (∀ dpr : ℝ, (resize s dpr).pressure = zeroFBO) := by
  refine ⟨rfl, ?_, rfl, ?_, fun dpr => rfl⟩
  · simp [step, advectVelocityStage, advectDyeStage, computeCurl, applyVorticity,
      computeDivergence, subtractGradient, solvePressure_eq, iterate_renderSwap_read]
  · funext i j
    simp [clearTargetPressure, clearChannel, zeroGrid, DoubleFBO.renderSwap, DoubleFBO.swap]

/-- Claim C7 counterexample: the curl stage produces a field (the curl texture
changes) without writing any double-buffered Field's write buffer and without
any swap — velocity, dye and pressure (both their read and write buffers) are
bit-for-bit unchanged — so it is not the case that every field-producing stage
of step writes a write buffer and swaps. -/
theorem swap_every_stage_counterexample :
    (computeCurl exSolver).1.velocity = exSolver.velocity
    ∧ (computeCurl exSolver).1.dye = exSolver.dye
    ∧ (computeCurl exSolver).1.pressure = exSolver.pressure
    ∧ (computeCurl exSolver).1.curl 0 0 ≠ exSolver.curl 0 0 := by
  refine ⟨rfl, rfl, rfl, ?_⟩
  simp [computeCurl, exSolver, mkSolver, curlPass, sampleC, zeroVelocityFBO, zeroGrid]

/-- Claim C7 (amended): renderTo(write)+swap() makes the freshly written data
the read buffer (and the old read data the write buffer), and every stage that
produces a double-buffered Field — the two advections, vorticity, each
pressure iteration, gradient subtraction, the splats and the clears — follows
this pattern, so reading the Field immediately afterwards returns the newly
written pass output computed from the pre-pass read buffers; the curl and
divergence stages instead render into single-buffered textures with no write
buffer or swap. -/
theorem swap_correctness :
    (∀ (V : Type) (d : DoubleFBO V) (g : V),
      (d.renderSwap g).read = g ∧ (d.renderSwap g).write = d.read)
    ∧ (∀ (s : FluidSolver) (dt : ℝ),
        (advectVelocityStage s dt).1.velocity.read
          = (advectChannel s.settings.simSize s.settings.simSize s.settings.simSize
              s.settings.simSize s.velocity.read.1 s.velocity.read.2 s.velocity.read.1
              s.settings.velocityDissipation dt,
             advectChannel s.settings.simSize s.settings.simSize s.settings.simSize
              s.settings.simSize s.velocity.read.1 s.velocity.read.2 s.velocity.read.2
              s.settings.velocityDissipation dt))
    ∧ (∀ (s : FluidSolver) (dt : ℝ),
        (advectDyeStage s dt).1.dye.read
          = advectDyeField s.settings.simSize s.settings.simSize s.settings.dyeSize
              s.settings.dyeSize s.velocity.read.1 s.velocity.read.2 s.dye.read
              s.settings.densityDissipation dt)
    ∧ (∀ (s : FluidSolver) (amount dt : ℝ),
        (applyVorticity s amount dt).1.velocity.read
          = vorticityPass s.settings.simSize s.settings.simSize s.velocity.read.1
              s.velocity.read.2 s.curl amount dt)
    ∧ (∀ s : FluidSolver,
        (pressureIteration s).pressure.read
          = jacobiPass s.settings.simSize s.settings.simSize s.pressure.read s.divergence)
    ∧ (∀ s : FluidSolver,
        (subtractGradient s).1.velocity.read
          = gradientSubtractPass s.settings.simSize s.settings.simSize s.pressure.read
              s.velocity.read.1 s.velocity.read.2)
    ∧ (∀ (s : FluidSolver) (px py cr cg cb : ℝ),
        (addDyeSplat s px py cr cg cb).dye.read
          = splatPass s.settings.dyeSize s.settings.dyeSize s.dye.read px py cr cg cb
              s.settings.splatRadius)
    ∧ (∀ (s : FluidSolver) (px py fx fy : ℝ),
        (addVelocitySplat s px py fx fy).velocity.read
          = velocitySplatPass s.settings.simSize s.settings.simSize s.velocity.read.1
              s.velocity.read.2 px py fx fy s.settings.splatRadius)
    ∧ (∀ s : FluidSolver,
        (computeCurl s).1.curl
          = curlPass s.settings.simSize s.settings.simSize s.velocity.read.1
              s.velocity.read.2)
    ∧ (∀ s : FluidSolver,
        (computeDivergence s).1.divergence
          = divergencePass s.settings.simSize s.settings.simSize s.velocity.read.1
              s.velocity.read.2) :=
  ⟨fun _ _ _ => ⟨rfl, rfl⟩, fun _ _ => rfl, fun _ _ => rfl, fun _ _ _ => rfl,
   fun _ => rfl, fun _ => rfl, fun _ _ _ _ _ _ => rfl, fun _ _ _ _ _ => rfl,
   fun _ => rfl, fun _ => rfl⟩

/-- Claim C10: addDyeSplat renders the splat pass into the dye write buffer
and swaps the dye Field only — velocity, pressure, divergence, curl and the
settings (hence all Field dimensions) are untouched; symmetrically,
addVelocitySplat touches only the velocity Field. -/
theorem splat_frame_conditions (s : FluidSolver) (px py cr cg cb fx fy : ℝ) :
    (addDyeSplat s px py cr cg cb).velocity = s.velocity
    ∧ (addDyeSplat s px py cr cg cb).pressure = s.pressure
    ∧ (addDyeSplat s px py cr cg cb).divergence = s.divergence
    ∧ (addDyeSplat s px py cr cg cb).curl = s.curl
    ∧ (addDyeSplat s px py cr cg cb).settings = s.settings
    ∧ (addDyeSplat s px py cr cg cb).dye
        = s.dye.renderSwap (splatPass s.settings.dyeSize s.settings.dyeSize s.dye.read
            px py cr cg cb s.settings.splatRadius)
    ∧ (addVelocitySplat s px py fx fy).dye = s.dye
    ∧ (addVelocitySplat s px py fx fy).pressure = s.pressure
    ∧ (addVelocitySplat s px py fx fy).divergence = s.divergence
    ∧ (addVelocitySplat s px py fx fy).curl = s.curl
    ∧ (addVelocitySplat s px py fx fy).settings = s.settings
    ∧ (addVelocitySplat s px py fx fy).velocity
        = s.velocity.renderSwap (velocitySplatPass s.settings.simSize s.settings.simSize
            s.velocity.read.1 s.velocity.read.2 px py fx fy s.settings.splatRadius) :=
  ⟨rfl, rfl, rfl, rfl, rfl, rfl, rfl, rfl, rfl, rfl, rfl, rfl⟩

/-- Claim C8: resize(dpr) recomputes the simulation resolution (shared by
velocity, pressure, divergence and curl) and the dye resolution as the stored
base sizes times the clamped scale factor max(1, dpr), reallocates all Fields
zero-filled, and — because the scale is clamped to at least 1 — the resulting
dimensions are at least 1 × 1 for every scale factor, including zero or
negative ones (given base sizes of at least 1, as the defaults are); moreover
step, the splats and the clears never change the settings, so resize is the
only operation that changes any Field's dimensions. -/
theorem resize_spec (s : FluidSolver) (dpr : ℝ) (hs : 1 ≤ s.baseSim) (hd : 1 ≤ s.baseDye) :
    (resize s dpr).settings.simSize = round ((s.baseSim : ℝ) * max 1 dpr)
    ∧ (resize s dpr).settings.dyeSize = round ((s.baseDye : ℝ) * max 1 dpr)
    ∧ 1 ≤ (resize s dpr).settings.simSize
    ∧ 1 ≤ (resize s dpr).settings.dyeSize
    ∧ (resize s dpr).velocity = zeroVelocityFBO
    ∧ (resize s dpr).dye.read = zeroDye
    ∧ (resize s dpr).pressure = zeroFBO
    ∧ (∀ dt : ℝ, (step s dt).1.settings = s.settings)
    ∧ (∀ px py cr cg cb : ℝ, (addDyeSplat s px py cr cg cb).settings = s.settings)
    ∧ (∀ px py fx fy : ℝ, (addVelocitySplat s px py fx fy).settings = s.settings)
    ∧ (∀ v : ℝ, (clearTargetDye s v).settings = s.settings)
    ∧ (∀ v : ℝ, (clearTargetPressure s v).settings = s.settings) := by
  have h1 : ∀ b : ℤ, 1 ≤ b → 1 ≤ round ((b : ℝ) * max 1 dpr) := by
    intro b hb
    have hscale : (1 : ℝ) ≤ max 1 dpr := le_max_left 1 dpr
    have hb1 : (1 : ℝ) ≤ (b : ℝ) := by exact_mod_cast hb
    have hx : (1 : ℝ) ≤ (b : ℝ) * max 1 dpr := by nlinarith
    rw [round_eq]
    exact Int.le_floor.mpr (by push_cast; linarith)
  refine ⟨rfl, rfl, h1 _ hs, h1 _ hd, rfl, rfl, rfl, ?_,
    fun _ _ _ _ _ => rfl, fun _ _ _ _ => rfl, fun _ => rfl, fun _ => rfl⟩
  intro dt
  simp [step, advectVelocityStage, advectDyeStage, computeCurl, applyVorticity,
    computeDivergence, subtractGradient, solvePressure_eq]

/-- Witness for resize_spec: the default solver (base sizes 256 and 512) with
scale factor 2 keeps both dimensions at least 1. -/
theorem resize_spec_witness :
    (1 ≤ mkSolver.baseSim ∧ 1 ≤ mkSolver.baseDye)
    ∧ (1 ≤ (resize mkSolver 2).settings.simSize
        ∧ 1 ≤ (resize mkSolver 2).settings.dyeSize) := by
  have hs : 1 ≤ mkSolver.baseSim := by norm_num [mkSolver, DEFAULTS]
  have hd : 1 ≤ mkSolver.baseDye := by norm_num [mkSolver, DEFAULTS]
  have h := resize_spec mkSolver 2 hs hd
  exact ⟨⟨hs, hd⟩, h.2.2.1, h.2.2.2.1⟩

/-- Claim C3 counterexample: at cell (1, 0) of a 3 × 1 grid with curl texture
(0, 2, 4) and zero velocity, with strength 1 and dt 1, the code's vorticity
update produces 4 / (2 + 1e-5) while the claim's formula (normalized gradient
of |curl| scaled by the curl's sign and the strength) produces 1 — the code
scales by the curl value c, not merely its sign, and normalizes with an
epsilon. -/
theorem vorticity_sign_counterexample :
    (vorticityPass 3 1 zeroGrid zeroGrid exCurl 1 1).1 1 0
      ≠ (specVorticityVelocity 3 1 zeroGrid zeroGrid exCurl 1 1).1 1 0 := by
  have hsqrt : Real.sqrt 4 = 2 := by
    rw [show (4 : ℝ) = 2 ^ 2 by norm_num, Real.sqrt_sq (by norm_num : (0 : ℝ) ≤ 2)]
  norm_num [vorticityPass, vorticityForce, specVorticityVelocity, sampleC, clampIdx,
    exCurl, zeroGrid, glslLength, sgn, hsqrt]

/-- Claim C3 (amended): the vorticity stage updates each velocity sample by
adding dt times the force obtained by taking the central-difference gradient
of |curl|, dividing it by its length plus the epsilon 1e-5, and scaling by
the strength times the local curl value c — so the force magnitude depends on
the magnitude of the local curl (through c) and on the gradient, not only on
the curl's sign. -/
theorem vorticity_formula (w h : ℤ) (velx vely curlg : SGrid ℝ) (amount dt : ℝ) (i j : ℤ) :
    (vorticityPass w h velx vely curlg amount dt).1 i j
      = sampleC w h velx i j
        + ((1 / 2) * (|sampleC w h curlg (i + 1) j| - |sampleC w h curlg (i - 1) j|))
          / (Real.sqrt (((1 / 2) * (|sampleC w h curlg (i + 1) j|
                - |sampleC w h curlg (i - 1) j|)) ^ 2
              + ((1 / 2) * (|sampleC w h curlg i (j + 1)|
                - |sampleC w h curlg i (j - 1)|)) ^ 2) + 1 / 100000)
          * (amount * sampleC w h curlg i j) * dt
    ∧ (vorticityPass w h velx vely curlg amount dt).2 i j
      = sampleC w h vely i j
        + ((1 / 2) * (|sampleC w h curlg i (j + 1)| - |sampleC w h curlg i (j - 1)|))
          / (Real.sqrt (((1 / 2) * (|sampleC w h curlg (i + 1) j|
                - |sampleC w h curlg (i - 1) j|)) ^ 2
              + ((1 / 2) * (|sampleC w h curlg i (j + 1)|
                - |sampleC w h curlg i (j - 1)|)) ^ 2) + 1 / 100000)
          * (amount * sampleC w h curlg i j) * dt :=
  ⟨rfl, rfl⟩

/-!  Bilinear sampling lemmas, used for the dissipation and density claims. -/

/-- clampIdx is the identity on in-range indices. -/
lemma clampIdx_eq_self {n i : ℤ} (h0 : 0 ≤ i) (h1 : i < n) : clampIdx n i = i := by
  unfold clampIdx
  omega

/-- sampleC is a plain lookup on in-range indices. -/
lemma sampleC_eq_self {α : Type} [LinearOrderedField α] (w h : ℤ) (g : SGrid α) {i j : ℤ}
    (hi0 : 0 ≤ i) (hiw : i < w) (hj0 : 0 ≤ j) (hjh : j < h) :
    sampleC w h g i j = g i j := by
  unfold sampleC
  rw [clampIdx_eq_self hi0 hiw, clampIdx_eq_self hj0 hjh]

/-- texSample with its let bindings expanded. -/
lemma texSample_def {α : Type} [LinearOrderedField α] [FloorRing α] (w h : ℤ) (g : SGrid α)
    (ux uy : α) :
    texSample w h g ux uy =
      lerp (lerp (sampleC w h g ⌊ux * (w : α) - 1 / 2⌋ ⌊uy * (h : α) - 1 / 2⌋)
                 (sampleC w h g (⌊ux * (w : α) - 1 / 2⌋ + 1) ⌊uy * (h : α) - 1 / 2⌋)
                 (ux * (w : α) - 1 / 2 - ((⌊ux * (w : α) - 1 / 2⌋ : ℤ) : α)))
           (lerp (sampleC w h g ⌊ux * (w : α) - 1 / 2⌋ (⌊uy * (h : α) - 1 / 2⌋ + 1))
                 (sampleC w h g (⌊ux * (w : α) - 1 / 2⌋ + 1) (⌊uy * (h : α) - 1 / 2⌋ + 1))
                 (ux * (w : α) - 1 / 2 - ((⌊ux * (w : α) - 1 / 2⌋ : ℤ) : α)))
           (uy * (h : α) - 1 / 2 - ((⌊uy * (h : α) - 1 / 2⌋ : ℤ) : α)) := rfl

/-- advectChannel with its let bindings expanded. -/
lemma advectChannel_def {α : Type} [LinearOrderedField α] [FloorRing α] (vw vh tw th : ℤ)
    (velx vely src : SGrid α) (dissipation dt : α) (i j : ℤ) :
    advectChannel vw vh tw th velx vely src dissipation dt i j =
      dissipation * texSample tw th src
        (texelCenter tw i
          - dt * texSample vw vh velx (texelCenter tw i) (texelCenter th j) * (1 / (tw : α)))
        (texelCenter th j
          - dt * texSample vw vh vely (texelCenter tw i) (texelCenter th j) * (1 / (th : α))) :=
  rfl

/-- Interpolating with parameter 0 returns the first endpoint. -/
lemma lerp_zero {α : Type} [LinearOrderedField α] (a b : α) : lerp a b 0 = a := by
  simp [lerp]

/-- Sampling exactly at the center of an in-range texel returns that texel. -/
lemma texSample_texelCenter {α : Type} [LinearOrderedField α] [FloorRing α]
    (w h : ℤ) (g : SGrid α) {i j : ℤ}
    (hi0 : 0 ≤ i) (hiw : i < w) (hj0 : 0 ≤ j) (hjh : j < h) :
    texSample w h g (texelCenter w i) (texelCenter h j) = g i j := by
  have hw : ((w : ℤ) : α) ≠ 0 :=
    Int.cast_ne_zero.mpr (ne_of_gt (lt_of_le_of_lt hi0 hiw))
  have hh : ((h : ℤ) : α) ≠ 0 :=
    Int.cast_ne_zero.mpr (ne_of_gt (lt_of_le_of_lt hj0 hjh))
  have e1 : texelCenter w i * (w : α) - 1 / 2 = (i : α) := by
    unfold texelCenter
    field_simp
    ring
  have e2 : texelCenter h j * (h : α) - 1 / 2 = (j : α) := by
    unfold texelCenter
    field_simp
    ring
  rw [texSample_def, e1, e2, Int.floor_intCast, Int.floor_intCast, sub_self, sub_self,
    lerp_zero, lerp_zero, sampleC_eq_self w h g hi0 hiw hj0 hjh]

/-- Sampling the zero texture gives zero everywhere. -/
lemma texSample_zeroGrid (w h : ℤ) (ux uy : ℝ) : texSample w h zeroGrid ux uy = 0 := by
  rw [texSample_def]
  simp [sampleC, zeroGrid, lerp]

/-- Interpolating between values in [0, 1] with a parameter in [0, 1] stays
in [0, 1]. -/
lemma lerp_mem_01 {a b t : ℝ} (ha0 : 0 ≤ a) (ha1 : a ≤ 1) (hb0 : 0 ≤ b) (hb1 : b ≤ 1)
    (ht0 : 0 ≤ t) (ht1 : t ≤ 1) : 0 ≤ lerp a b t ∧ lerp a b t ≤ 1 := by
  unfold lerp
  constructor <;> nlinarith

/-- Bilinear sampling of a [0, 1]-valued texture stays in [0, 1]. -/
lemma texSample_mem_01 (w h : ℤ) (g : SGrid ℝ) (hg : ∀ i j : ℤ, 0 ≤ g i j ∧ g i j ≤ 1)
    (ux uy : ℝ) : 0 ≤ texSample w h g ux uy ∧ texSample w h g ux uy ≤ 1 := by
  have hc : ∀ i j : ℤ, 0 ≤ sampleC w h g i j ∧ sampleC w h g i j ≤ 1 := by
    intro i j
    exact hg _ _
  have hfr : ∀ x : ℝ, 0 ≤ x - ((⌊x⌋ : ℤ) : ℝ) ∧ x - ((⌊x⌋ : ℤ) : ℝ) ≤ 1 := by
    intro x
    constructor
    · have := Int.floor_le x
      linarith
    · have := Int.lt_floor_add_one x
      linarith
  rw [texSample_def]
  set ix := ⌊ux * (w : ℝ) - 1 / 2⌋
  set iy := ⌊uy * (h : ℝ) - 1 / 2⌋
  obtain ⟨hx0, hx1⟩ := hfr (ux * (w : ℝ) - 1 / 2)
  obtain ⟨hy0, hy1⟩ := hfr (uy * (h : ℝ) - 1 / 2)
  have h1 := lerp_mem_01 (hc ix iy).1 (hc ix iy).2
    (hc (ix + 1) iy).1 (hc (ix + 1) iy).2 hx0 hx1
  have h2 := lerp_mem_01 (hc ix (iy + 1)).1 (hc ix (iy + 1)).2
    (hc (ix + 1) (iy + 1)).1 (hc (ix + 1) (iy + 1)).2 hx0 hx1
  exact lerp_mem_01 h1.1 h1.2 h2.1 h2.2 hy0 hy1

/-- Advection of a [0, 1]-valued channel with dissipation in [0, 1] stays in
[0, 1]. -/
lemma advectChannel_mem_01 (vw vh tw th : ℤ) (velx vely src : SGrid ℝ)
    (hsrc : ∀ i j : ℤ, 0 ≤ src i j ∧ src i j ≤ 1) {diss : ℝ} (h0 : 0 ≤ diss) (h1 : diss ≤ 1)
    (dt : ℝ) (i j : ℤ) :
    0 ≤ advectChannel vw vh tw th velx vely src diss dt i j
      ∧ advectChannel vw vh tw th velx vely src diss dt i j ≤ 1 := by
  rw [advectChannel_def]
  have h := texSample_mem_01 tw th src hsrc
    (texelCenter tw i
      - dt * texSample vw vh velx (texelCenter tw i) (texelCenter th j) * (1 / (tw : ℝ)))
    (texelCenter th j
      - dt * texSample vw vh vely (texelCenter tw i) (texelCenter th j) * (1 / (th : ℝ)))
  exact ⟨mul_nonneg h0 h.1, mul_le_one₀ h1 h.1 h.2⟩

/-- With zero velocity, advection reduces to pointwise scaling by the
dissipation on every in-range texel. -/
lemma advectChannel_zero_velocity (w h : ℤ) (src : SGrid ℝ) (diss dt : ℝ) {i j : ℤ}
    (hi0 : 0 ≤ i) (hiw : i < w) (hj0 : 0 ≤ j) (hjh : j < h) :
    advectChannel w h w h zeroGrid zeroGrid src diss dt i j = diss * src i j := by
  rw [advectChannel_def, texSample_zeroGrid]
  simp only [mul_zero, zero_mul, sub_zero]
  rw [texSample_texelCenter w h src hi0 hiw hj0 hjh]

/-- With zero velocity, one advection pass scales the L1 magnitude of each
in-range dye texel by the (nonnegative) dissipation. -/
lemma cellMag_advect (w h : ℤ) (d : DyeField) {diss : ℝ} (h0 : 0 ≤ diss) (dt : ℝ) {i j : ℤ}
    (hi0 : 0 ≤ i) (hiw : i < w) (hj0 : 0 ≤ j) (hjh : j < h) :
    cellMag (advectDyeField w h w h zeroGrid zeroGrid d diss dt) i j = diss * cellMag d i j := by
  unfold cellMag advectDyeField
  dsimp only
  rw [advectChannel_zero_velocity w h d.r diss dt hi0 hiw hj0 hjh,
    advectChannel_zero_velocity w h d.g diss dt hi0 hiw hj0 hjh,
    advectChannel_zero_velocity w h d.b diss dt hi0 hiw hj0 hjh,
    advectChannel_zero_velocity w h d.a diss dt hi0 hiw hj0 hjh,
    abs_mul, abs_mul, abs_mul, abs_mul, abs_of_nonneg h0]
  ring

/-- Row sums of the advected dye magnitude scale by the dissipation. -/
lemma rowMag_advect (w h : ℕ) (d : DyeField) {diss : ℝ} (h0 : 0 ≤ diss) (dt : ℝ) {j : ℤ}
    (hj0 : 0 ≤ j) (hjh : j < (h : ℤ)) :
    ∀ n : ℕ, n ≤ w →
      rowMag (advectDyeField (w : ℤ) (h : ℤ) (w : ℤ) (h : ℤ) zeroGrid zeroGrid d diss dt) j n
        = diss * rowMag d j n := by
  intro n
  induction n with
  | zero =>
    intro _
    simp [rowMag]
  | succ n ih =>
    intro hn
    have hnw : ((n : ℤ)) < (w : ℤ) := by exact_mod_cast Nat.lt_of_succ_le hn
    rw [rowMag, rowMag, ih (Nat.le_of_succ_le hn),
      cellMag_advect (w : ℤ) (h : ℤ) d h0 dt (Int.ofNat_nonneg n) hnw hj0 hjh]
    ring

/-- The total dye magnitude of the advected field scales by the dissipation. -/
lemma dyeTotalMag_advect (w h : ℕ) (d : DyeField) {diss : ℝ} (h0 : 0 ≤ diss) (dt : ℝ) :
    dyeTotalMag w h (advectDyeField (w : ℤ) (h : ℤ) (w : ℤ) (h : ℤ) zeroGrid zeroGrid d diss dt)
      = diss * dyeTotalMag w h d := by
  unfold dyeTotalMag
  suffices H : ∀ m : ℕ, m ≤ h →
      dyeTotalMagAux (advectDyeField (w : ℤ) (h : ℤ) (w : ℤ) (h : ℤ)
          zeroGrid zeroGrid d diss dt) w m
        = diss * dyeTotalMagAux d w m by
    exact H h le_rfl
  intro m
  induction m with
  | zero =>
    intro _
    simp [dyeTotalMagAux]
  | succ m ih =>
    intro hm
    have hmh : ((m : ℤ)) < (h : ℤ) := by exact_mod_cast Nat.lt_of_succ_le hm
    rw [dyeTotalMagAux, dyeTotalMagAux, ih (Nat.le_of_succ_le hm),
      rowMag_advect w h d h0 dt (Int.ofNat_nonneg m) hmh w le_rfl]
    ring

/-- Claim C5: with an everywhere-zero velocity field, one advection pass
multiplies every in-range dye sample pointwise by the dissipation; hence the
total dye magnitude is scaled by the dissipation each pass, for dissipation in
(0, 1) a pass strictly decreases the total magnitude of a nonzero dye field
(and k repeated passes scale it by dissipation^k), and dissipation = 1 leaves
every in-range sample unchanged. -/
theorem advect_dissipation (w h : ℕ) (d : DyeField) (diss dt : ℝ) :
    (∀ i j : ℤ, 0 ≤ i → i < (w : ℤ) → 0 ≤ j → j < (h : ℤ) →
      (advectDyeField (w : ℤ) (h : ℤ) (w : ℤ) (h : ℤ) zeroGrid zeroGrid d diss dt).r i j
          = diss * d.r i j
        ∧ (advectDyeField (w : ℤ) (h : ℤ) (w : ℤ) (h : ℤ) zeroGrid zeroGrid d diss dt).g i j
          = diss * d.g i j
        ∧ (advectDyeField (w : ℤ) (h : ℤ) (w : ℤ) (h : ℤ) zeroGrid zeroGrid d diss dt).b i j
          = diss * d.b i j
        ∧ (advectDyeField (w : ℤ) (h : ℤ) (w : ℤ) (h : ℤ) zeroGrid zeroGrid d diss dt).a i j
          = diss * d.a i j)
    ∧ (0 ≤ diss →
        dyeTotalMag w h (advectDyeField (w : ℤ) (h : ℤ) (w : ℤ) (h : ℤ)
            zeroGrid zeroGrid d diss dt)
          = diss * dyeTotalMag w h d)
    ∧ (0 < diss → diss < 1 → 0 < dyeTotalMag w h d →
        dyeTotalMag w h (advectDyeField (w : ℤ) (h : ℤ) (w : ℤ) (h : ℤ)
            zeroGrid zeroGrid d diss dt)
          < dyeTotalMag w h d)
    ∧ (0 ≤ diss → ∀ k : ℕ,
        dyeTotalMag w h ((fun d0 => advectDyeField (w : ℤ) (h : ℤ) (w : ℤ) (h : ℤ)
            zeroGrid zeroGrid d0 diss dt)^[k] d)
          = diss ^ k * dyeTotalMag w h d)
    ∧ (diss = 1 → ∀ i j : ℤ, 0 ≤ i → i < (w : ℤ) → 0 ≤ j → j < (h : ℤ) →
        (advectDyeField (w : ℤ) (h : ℤ) (w : ℤ) (h : ℤ) zeroGrid zeroGrid d diss dt).r i j
          = d.r i j) := by
  refine ⟨?_, ?_, ?_, ?_, ?_⟩
  · intro i j hi0 hiw hj0 hjh
    exact ⟨advectChannel_zero_velocity _ _ d.r diss dt hi0 hiw hj0 hjh,
      advectChannel_zero_velocity _ _ d.g diss dt hi0 hiw hj0 hjh,
      advectChannel_zero_velocity _ _ d.b diss dt hi0 hiw hj0 hjh,
      advectChannel_zero_velocity _ _ d.a diss dt hi0 hiw hj0 hjh⟩
  · intro h0
    exact dyeTotalMag_advect w h d h0 dt
  · intro h0 h1 hpos
    rw [dyeTotalMag_advect w h d h0.le dt]
    nlinarith
  · intro h0 k
    induction k with
    | zero => simp
    | succ k ih =>
      rw [Function.iterate_succ_apply', dyeTotalMag_advect w h _ h0 dt, ih, pow_succ]
      ring
  · intro h1 i j hi0 hiw hj0 hjh
    show advectChannel (w : ℤ) (h : ℤ) (w : ℤ) (h : ℤ) zeroGrid zeroGrid d.r diss dt i j
      = d.r i j
    rw [advectChannel_zero_velocity _ _ d.r diss dt hi0 hiw hj0 hjh, h1, one_mul]

/-- Witness for advect_dissipation: on the 1 × 1 all-ones dye field with
dissipation 1/2 and dt 0, the total magnitude strictly decreases. -/
theorem advect_dissipation_witness :
    (0 < (1 / 2 : ℝ) ∧ (1 / 2 : ℝ) < 1 ∧ 0 < dyeTotalMag 1 1 exDye)
    ∧ dyeTotalMag 1 1 (advectDyeField 1 1 1 1 zeroGrid zeroGrid exDye (1 / 2) 0)
        < dyeTotalMag 1 1 exDye := by
  have hmag : dyeTotalMag 1 1 exDye = 4 := by
    show dyeTotalMagAux exDye 1 1 = 4
    rw [dyeTotalMagAux, dyeTotalMagAux, rowMag, rowMag]
    norm_num [cellMag, exDye]
  refine ⟨⟨by norm_num, by norm_num, by rw [hmag]; norm_num⟩, ?_⟩
  exact (advect_dissipation 1 1 exDye (1 / 2) 0).2.2.1 (by norm_num) (by norm_num)
    (by rw [hmag]; norm_num)

/-- The splat falloff in terms of the squared distance: d·d with
d = sqrt(squared distance) is the squared distance itself. -/
lemma splatInfluence_eq (ux uy px py radius : ℝ) :
    splatInfluence ux uy px py radius
      = Real.exp (-((ux - px) ^ 2 + (uy - py) ^ 2) / radius) := by
  unfold splatInfluence glslDistance
  rw [Real.mul_self_sqrt (by positivity)]

/-- Claim C6: addDyeSplat(p, c) adds c scaled by influence = exp(-d²/radius)
to each sample's RGB channels (d the distance from the sample's texel center
to p in normalized coordinates) and sets the density channel to
clamp(density + influence, 0, 1); the influence is antitone in the squared
distance, so the change decays with distance from p; every sample whose
squared distance is at least radius·log(1/ε) has influence at most ε, and a
clamped density in [0, 1] moves by at most the influence. -/
theorem dye_splat_spec (s : FluidSolver) (px py cr cg cb : ℝ) (i j : ℤ)
    (hr : 0 < s.settings.splatRadius) :
    ((addDyeSplat s px py cr cg cb).dye.read.r i j
        = sampleC s.settings.dyeSize s.settings.dyeSize s.dye.read.r i j
          + cr * Real.exp (-(((texelCenter s.settings.dyeSize i : ℝ) - px) ^ 2
              + ((texelCenter s.settings.dyeSize j : ℝ) - py) ^ 2) / s.settings.splatRadius)
      ∧ (addDyeSplat s px py cr cg cb).dye.read.g i j
        = sampleC s.settings.dyeSize s.settings.dyeSize s.dye.read.g i j
          + cg * Real.exp (-(((texelCenter s.settings.dyeSize i : ℝ) - px) ^ 2
              + ((texelCenter s.settings.dyeSize j : ℝ) - py) ^ 2) / s.settings.splatRadius)
      ∧ (addDyeSplat s px py cr cg cb).dye.read.b i j
        = sampleC s.settings.dyeSize s.settings.dyeSize s.dye.read.b i j
          + cb * Real.exp (-(((texelCenter s.settings.dyeSize i : ℝ) - px) ^ 2
              + ((texelCenter s.settings.dyeSize j : ℝ) - py) ^ 2) / s.settings.splatRadius)
      ∧ (addDyeSplat s px py cr cg cb).dye.read.a i j
        = glslClamp (sampleC s.settings.dyeSize s.settings.dyeSize s.dye.read.a i j
            + Real.exp (-(((texelCenter s.settings.dyeSize i : ℝ) - px) ^ 2
              + ((texelCenter s.settings.dyeSize j : ℝ) - py) ^ 2)
              / s.settings.splatRadius)) 0 1)
    ∧ (∀ u1 v1 u2 v2 : ℝ,
        (u1 - px) ^ 2 + (v1 - py) ^ 2 ≤ (u2 - px) ^ 2 + (v2 - py) ^ 2 →
        splatInfluence u2 v2 px py s.settings.splatRadius
          ≤ splatInfluence u1 v1 px py s.settings.splatRadius)
    ∧ (∀ ε : ℝ, 0 < ε → ∀ u v : ℝ,
        s.settings.splatRadius * Real.log (1 / ε) ≤ (u - px) ^ 2 + (v - py) ^ 2 →
        splatInfluence u v px py s.settings.splatRadius ≤ ε)
    ∧ (∀ base inc : ℝ, 0 ≤ base → base ≤ 1 → 0 ≤ inc →
        |glslClamp (base + inc) 0 1 - base| ≤ inc) := by
  refine ⟨⟨?_, ?_, ?_, ?_⟩, ?_, ?_, ?_⟩
  · simp only [addDyeSplat, DoubleFBO.renderSwap, DoubleFBO.swap, splatPass, splatInfluence_eq]
  · simp only [addDyeSplat, DoubleFBO.renderSwap, DoubleFBO.swap, splatPass, splatInfluence_eq]
  · simp only [addDyeSplat, DoubleFBO.renderSwap, DoubleFBO.swap, splatPass, splatInfluence_eq]
  · simp only [addDyeSplat, DoubleFBO.renderSwap, DoubleFBO.swap, splatPass, splatInfluence_eq]
  · intro u1 v1 u2 v2 hle
    rw [splatInfluence_eq, splatInfluence_eq]
    apply Real.exp_le_exp.mpr
    rw [neg_div, neg_div, neg_le_neg_iff]
    exact (div_le_div_iff_of_pos_right hr).mpr hle
  · intro ε hε u v hd
    rw [splatInfluence_eq]
    have h2 : s.settings.splatRadius * Real.log (1 / ε)
        = -(s.settings.splatRadius * Real.log ε) := by
      rw [one_div, Real.log_inv]
      ring
    rw [h2] at hd
    have hlog : -((u - px) ^ 2 + (v - py) ^ 2) / s.settings.splatRadius ≤ Real.log ε := by
      rw [div_le_iff₀ hr]
      linarith
    calc Real.exp (-((u - px) ^ 2 + (v - py) ^ 2) / s.settings.splatRadius)
        ≤ Real.exp (Real.log ε) := Real.exp_le_exp.mpr hlog
      _ = ε := Real.exp_log hε
  · intro base inc hb0 hb1 hi0
    unfold glslClamp
    rw [abs_le]
    constructor
    · have h1 : base ≤ min (max (base + inc) 0) 1 :=
        le_min (le_trans (by linarith) (le_max_left _ _)) hb1
      linarith
    · have h2 : min (max (base + inc) 0) 1 ≤ base + inc := by
        rw [max_eq_left (by linarith : (0 : ℝ) ≤ base + inc)]
        exact min_le_left _ _
      linarith

/-- Witness for dye_splat_spec: the default solver, a splat at (1/2, 1/2) with
color (1, 0, 0), sample (0, 0). -/
theorem dye_splat_spec_witness :
    0 < mkSolver.settings.splatRadius
    ∧ (addDyeSplat mkSolver (1 / 2) (1 / 2) 1 0 0).dye.read.r 0 0
        = sampleC mkSolver.settings.dyeSize mkSolver.settings.dyeSize mkSolver.dye.read.r 0 0
          + 1 * Real.exp (-(((texelCenter mkSolver.settings.dyeSize 0 : ℝ) - 1 / 2) ^ 2
              + ((texelCenter mkSolver.settings.dyeSize 0 : ℝ) - 1 / 2) ^ 2)
            / mkSolver.settings.splatRadius) := by
  have hr : 0 < mkSolver.settings.splatRadius := by norm_num [mkSolver, DEFAULTS]
  exact ⟨hr, (dye_splat_spec mkSolver (1 / 2) (1 / 2) 1 0 0 0 0 hr).1.1⟩

/-- During step, the dye field is written exactly once: by the dye advection
(stage 2), against the post-stage-1 velocity, the entry dye read buffer, and
the density dissipation. -/
lemma step_dye_read (s : FluidSolver) (dt : ℝ) :
    ∃ velx vely : SGrid ℝ,
      (step s dt).1.dye.read
        = advectDyeField s.settings.simSize s.settings.simSize s.settings.dyeSize
            s.settings.dyeSize velx vely s.dye.read s.settings.densityDissipation dt := by
  refine ⟨advectChannel s.settings.simSize s.settings.simSize s.settings.simSize
      s.settings.simSize s.velocity.read.1 s.velocity.read.2 s.velocity.read.1
      s.settings.velocityDissipation dt,
    advectChannel s.settings.simSize s.settings.simSize s.settings.simSize
      s.settings.simSize s.velocity.read.1 s.velocity.read.2 s.velocity.read.2
      s.settings.velocityDissipation dt, ?_⟩
  simp [step, advectVelocityStage, advectDyeStage, computeCurl, applyVorticity,
    computeDivergence, subtractGradient, solvePressure_eq, DoubleFBO.renderSwap,
    DoubleFBO.swap]

/-- No interaction changes the settings. -/
lemma runOp_settings (s : FluidSolver) (op : FluidOp) : (runOp s op).settings = s.settings := by
  cases op with
  | timeStep dt =>
    simp [runOp, step, advectVelocityStage, advectDyeStage, computeCurl, applyVorticity,
      computeDivergence, subtractGradient, solvePressure_eq]
  | dyeSplat px py cr cg cb => rfl
  | velocitySplat px py fx fy => rfl
  | clearDye v => rfl

/-- Each single interaction preserves the density bounds. -/
lemma runOp_density (s : FluidSolver) (op : FluidOp)
    (hdd0 : 0 < s.settings.densityDissipation) (hdd1 : s.settings.densityDissipation ≤ 1)
    (hop : ValidOp op) (hs : DyeDensityBounded s) : DyeDensityBounded (runOp s op) := by
  cases op with
  | timeStep dt =>
    intro i j
    obtain ⟨velx, vely, he⟩ := step_dye_read s dt
    show 0 ≤ (step s dt).1.dye.read.a i j ∧ (step s dt).1.dye.read.a i j ≤ 1
    rw [he]
    exact advectChannel_mem_01 _ _ _ _ velx vely s.dye.read.a (fun i j => hs i j)
      hdd0.le hdd1 dt i j
  | dyeSplat px py cr cg cb =>
    intro i j
    show 0 ≤ glslClamp (sampleC s.settings.dyeSize s.settings.dyeSize s.dye.read.a i j
        + splatInfluence (texelCenter s.settings.dyeSize i) (texelCenter s.settings.dyeSize j)
            px py s.settings.splatRadius) 0 1
      ∧ glslClamp (sampleC s.settings.dyeSize s.settings.dyeSize s.dye.read.a i j
        + splatInfluence (texelCenter s.settings.dyeSize i) (texelCenter s.settings.dyeSize j)
            px py s.settings.splatRadius) 0 1 ≤ 1
    unfold glslClamp
    exact ⟨le_min (le_max_right _ _) zero_le_one, min_le_right _ _⟩
  | velocitySplat px py fx fy => exact hs
  | clearDye v =>
    intro i j
    obtain ⟨hv0, hv1⟩ := hop
    show 0 ≤ sampleC s.settings.dyeSize s.settings.dyeSize s.dye.read.a i j * v
      ∧ sampleC s.settings.dyeSize s.settings.dyeSize s.dye.read.a i j * v ≤ 1
    have hb := hs (clampIdx s.settings.dyeSize i) (clampIdx s.settings.dyeSize j)
    exact ⟨mul_nonneg hb.1 hv0, mul_le_one₀ hb.2 hv0 hv1⟩

/-- Claim C9: starting from a solver whose dye density channel lies in [0, 1]
everywhere (for instance the zero-initialized fields), with density
dissipation in (0, 1], the density stays in [0, 1] at every sample after any
sequence of step(dt), addDyeSplat, addVelocitySplat, and clearTarget(dye, v)
with v in [0, 1]: the splat clamps density, dye advection is a convex bilinear
combination of clamped in-range values scaled by a factor at most 1, and the
clear multiplies by v ≤ 1. -/
theorem dye_density_invariant (ops : List FluidOp) (s : FluidSolver)
    (hdd0 : 0 < s.settings.densityDissipation) (hdd1 : s.settings.densityDissipation ≤ 1)
    (hops : ∀ op ∈ ops, ValidOp op) (hs : DyeDensityBounded s) :
    DyeDensityBounded (runOps s ops) := by
  induction ops generalizing s with
  | nil => exact hs
  | cons op rest ih =>
    have hsettings := runOp_settings s op
    have h1 : 0 < (runOp s op).settings.densityDissipation := by
      rw [hsettings]
      exact hdd0
    have h2 : (runOp s op).settings.densityDissipation ≤ 1 := by
      rw [hsettings]
      exact hdd1
    exact ih (runOp s op) h1 h2 (fun o ho => hops o (List.mem_cons_of_mem _ ho))
      (runOp_density s op hdd0 hdd1 (hops op (List.mem_cons_self _ _)) hs)

/-- Witness for dye_density_invariant: the default zero-initialized solver,
one dye splat followed by one frame step. -/
theorem dye_density_invariant_witness :
    (0 < mkSolver.settings.densityDissipation
      ∧ mkSolver.settings.densityDissipation ≤ 1
      ∧ DyeDensityBounded mkSolver)
    ∧ DyeDensityBounded (runOps mkSolver
        [FluidOp.dyeSplat (1 / 2) (1 / 2) 1 0 0, FluidOp.timeStep (2 / 125)]) := by
  have h0 : 0 < mkSolver.settings.densityDissipation := by norm_num [mkSolver, DEFAULTS]
  have h1 : mkSolver.settings.densityDissipation ≤ 1 := by norm_num [mkSolver, DEFAULTS]
  have hb : DyeDensityBounded mkSolver := by
    intro i j
    constructor <;> norm_num [mkSolver, zeroDye, zeroGrid]
  refine ⟨⟨h0, h1, hb⟩, ?_⟩
  apply dye_density_invariant _ mkSolver h0 h1 ?_ hb
  intro op hop
  simp only [List.mem_cons, List.not_mem_nil, or_false] at hop
  rcases hop with h | h
  · subst h
    trivial
  · subst h
    trivial

end Fluid
